import Mathlib

/-!
Formal model of `vefixer` (`src/vefixer/__init__.py`), a tool that finds
Python virtual environments under a directory tree and migrates them to a
new toolchain manager.

Modelling conventions used throughout this file:

* Filesystem paths are lists of path components (`List String`).  The
  leading root component `"/"` of an absolute `pathlib.Path` is usually
  omitted when rendering a path as a string, because no claim depends on
  the exact rendering of the root marker; `extract_python_version`
  receives the raw component sequence, where a root component may be
  included (it can never equal `"python"` nor match the version pattern).
* External processes are not run; instead, an `oracle` function maps an
  argv vector to the `CmdResult` the process would have produced, and the
  model records every side effect (process execution, working-directory
  change, console print) in an explicit `Effect` trace.
* Python exceptions are modelled explicitly: a function that can raise
  returns the effects produced so far together with a `crashed` flag (or
  an `Except` value).
-/

/-- Result of `subprocess.run` with `capture_output=True`: the exit status
and the captured standard output and standard error (already decoded). -/
structure CmdResult where
  returncode : Int
  stdout : String
  stderr : String
deriving Repr, DecidableEq

/-- Observable side effect of the program: a console print, an actual
execution of an external process (`subprocess.run`), or a change of the
process working directory (`os.chdir`). -/
inductive Effect where
  | consolePrint (s : String)
  | runProc (cmd : List String)
  | chdir (path : List String)
deriving Repr, DecidableEq

/-- Predicate selecting print effects: used to state that a piece of code
only reports intent and performs no process execution or directory change. -/
def isPrint : Effect → Bool
  | Effect.consolePrint _ => true
  | _ => false

/-- Concatenation of path components with `/` separators, modelling
`str(path)` for a `pathlib.Path` given by its components. -/
def joinWith (sep : List Char) : List (List Char) → List Char
  | [] => []
  | [x] => x
  | x :: y :: xs => x ++ sep ++ joinWith sep (y :: xs)

/-- Render a component list as the string `pathlib` would print. -/
def pathStr (p : List String) : String :=
  String.mk (joinWith ['/'] (p.map String.data))

/-- Simplified rendering of an argv list for trace messages (the Python
source prints the `repr` of the list; the exact rendering of command lists
inside diagnostic messages is irrelevant to every claim, so a plain
space-separated rendering is used). -/
def cmd_text (cmd : List String) : String :=
  String.mk (joinWith [' '] (cmd.map String.data))

/-- Whitespace trimming, modelling Python's `str.strip()` (written on the
character list so that it evaluates by kernel reduction). -/
def strip (s : String) : String :=
  String.mk (((s.data.dropWhile Char.isWhitespace).reverse.dropWhile Char.isWhitespace).reverse)

/-- Model of `run_command(cmd, dry_run, verbose, debug)` (source lines
161-178).  In live mode it runs the process (consulting `oracle` for the
result), prints diagnostics depending on `debug`/`verbose`/failure, and
returns the trimmed stdout on exit status 0 (`"OK"` when the trimmed
output is empty) or `None` on a non-zero exit status.  In dry-run mode it
performs no execution, prints the intent and returns the string `"/tmp"`. -/
def run_command (oracle : List String → CmdResult) (cmd : List String)
    (dry_run : Bool) (verbose : Nat) (debug : Bool) :
    Option String × List Effect :=
  if dry_run then
    (some "/tmp", [Effect.consolePrint ("Would run: " ++ cmd_text cmd)])
  else
    let pre : List Effect :=
      if debug ∨ verbose > 2 then [Effect.consolePrint ("Running: " ++ cmd_text cmd)] else []
    let result := oracle cmd
    let mid : List Effect :=
      if debug ∨ result.returncode ≠ 0 ∨ verbose > 2 then
        [Effect.consolePrint ("stdout: " ++ result.stdout),
         Effect.consolePrint ("stderr: " ++ result.stderr),
         Effect.consolePrint ("return code: " ++ toString result.returncode)]
      else []
    let eff := pre ++ [Effect.runProc cmd] ++ mid
    if result.returncode ≠ 0 then (none, eff)
    else (some (if strip result.stdout = "" then "OK" else strip result.stdout), eff)

/-- Model of `change_dir(path, dry_run, verbose)` (source lines 151-158):
in dry-run mode only the intent is printed; otherwise the process working
directory is changed (optionally traced when `verbose > 1`). -/
def change_dir (path : List String) (dry_run : Bool) (verbose : Nat) : List Effect :=
  if dry_run then [Effect.consolePrint ("Would change to " ++ pathStr path)]
  else
    (if verbose > 1 then [Effect.consolePrint ("Changing to " ++ pathStr path)] else [])
      ++ [Effect.chdir path]

/-- Split a character list on `.` separators (used to express the version
regular expression structurally). -/
def splitOnDot : List Char → List (List Char)
  | [] => [[]]
  | c :: rest =>
    let r := splitOnDot rest
    if c = '.' then [] :: r
    else
      match r with
      | g :: gs => (c :: g) :: gs
      | [] => [[c]]

/-- Model of `is_a_version(part)` (source lines 102-106): whether a path
component matches the anchored pattern `^\d+\.\d+(\.\d+)?$`, i.e. two or
three non-empty groups of decimal digits separated by dots. -/
def is_a_version (part : String) : Bool :=
  let groups := splitOnDot part.data
  (groups.length == 2 || groups.length == 3) &&
    groups.all (fun g => (!g.isEmpty) && g.all Char.isDigit)

/-- Model of `extract_python_version(symlink)` (source lines 109-113),
operating on `symlink.parts`.  The Python loop reads `parts[i + 1]`
whenever `parts[i] == "python"`; when `"python"` is the final component
and no earlier adjacency matched, that subscript is out of range and the
function raises `IndexError`, modelled as `Except.error ()`.  A normal
exit returns the component following the first `"python"` component that
is followed by a version, or `none` when the loop finishes. -/
def extract_python_version : List String → Except Unit (Option String)
  | [] => Except.ok none
  | [p] => if p = "python" then Except.error () else Except.ok none
  | p :: q :: rest =>
    if p = "python" && is_a_version q then Except.ok (some q)
    else extract_python_version (q :: rest)

mutual
/-- Filesystem tree for the requirements resolver and the orchestrator's
parent-directory listing: a node is a plain file or a directory with a
named entry list (entry order is `iterdir` order). -/
inductive FSTree where
  | file : FSTree
  | dir : EntryList → FSTree
deriving DecidableEq
/-- Named entries of a directory, in `iterdir` order. -/
inductive EntryList where
  | nil : EntryList
  | cons (name : String) (t : FSTree) (rest : EntryList) : EntryList
deriving DecidableEq
end

/-- Names of the entries of a directory, modelling
`list(p.name for p in directory.iterdir())`. -/
def entryNames : EntryList → List String
  | EntryList.nil => []
  | EntryList.cons n _ rest => n :: entryNames rest

/-- Look up a named child in an entry list. -/
def lookupEntry : EntryList → String → Option FSTree
  | EntryList.nil, _ => none
  | EntryList.cons n t rest, name => if n = name then some t else lookupEntry rest name

/-- Resolve a component path to the subtree it denotes, if any. -/
def lookupPath : FSTree → List String → Option FSTree
  | t, [] => some t
  | FSTree.file, _ :: _ => none
  | FSTree.dir entries, n :: rest =>
    match lookupEntry entries n with
    | some t => lookupPath t rest
    | none => none

mutual
/-- Model of the inner helper `search_in(directory)` of
`find_requirements_file` (source lines 119-135), applied to the subtree at
`path`: return the path of an entry named `requirements.txt` directly in
the directory, else recurse into a `docker` child when one exists.  A
non-directory argument yields `none` (the `is_dir` guard). -/
def search_in : FSTree → List String → Option (List String)
  | FSTree.file, _ => none
  | FSTree.dir entries, path =>
    if (entryNames entries).contains "requirements.txt" then
      some (path ++ ["requirements.txt"])
    else search_docker entries path
/-- Scan the entries for one named `docker` and search inside it (the
Python code sets `found_docker_directory` during the entry scan and then
searches `directory / "docker"`). -/
def search_docker : EntryList → List String → Option (List String)
  | EntryList.nil, _ => none
  | EntryList.cons n t rest, path =>
    if n = "docker" then search_in t (path ++ ["docker"])
    else search_docker rest path
end

/-- Apply `search_in` to a path inside the filesystem `fs`, resolving the
path first (a missing or non-directory path yields `none`, matching the
`is_dir` guard at the top of `search_in`). -/
def search_in_path (fs : FSTree) (path : List String) : Option (List String) :=
  match lookupPath fs path with
  | some t => search_in t path
  | none => none

/-- Model of `find_requirements_file(directory)` (source lines 116-148):
search the directory itself; if nothing is found and the directory's
parent is named `administrator`, search the sibling project obtained by
substituting `eng-tools` for `administrator` (preserving the final
directory name); symmetrically for a parent named `eng-tools`. -/
def find_requirements_file (fs : FSTree) (directory : List String) : Option (List String) :=
  match search_in_path fs directory with
  | some p => some p
  | none =>
    match
      (if directory.dropLast.getLastD "" = "administrator" then
        search_in_path fs (directory.dropLast.dropLast ++ ["eng-tools", directory.getLastD ""])
      else none) with
    | some p => some p
    | none =>
      if directory.dropLast.getLastD "" = "eng-tools" then
        search_in_path fs (directory.dropLast.dropLast ++ ["administrator", directory.getLastD ""])
      else none

/-- Rendering of an optional string in an f-string, as Python renders it
(`None` for an absent value, the string itself otherwise). -/
def optStr : Option String → String
  | none => "None"
  | some s => s

/-- Substring test on character lists, modelling Python's `in` operator on
strings. -/
def infixOf (needle : List Char) : List Char → Bool
  | [] => needle.isEmpty
  | c :: rest => needle.isPrefixOf (c :: rest) || infixOf needle rest

/-- Probe command asking the target manager for the interpreter path
(source lines 195-208). -/
def probe_cmd (python_version : Option String) : List String :=
  ["mise", "exec", "python@" ++ optStr python_version, "--",
   "python", "-c", "import sys; print(sys.executable)"]

/-- Command rebuilding the virtual environment under the pinned
interpreter (source lines 248-262). -/
def venv_cmd (python_version : Option String) (ve : List String) : List String :=
  ["mise", "exec", "python@" ++ optStr python_version, "--",
   "python", "-m", "venv", pathStr ve]

/-- Model of the `target == "mise"` arm that determines `target_path`
(source lines 194-214): run the probe command, and in dry-run mode replace
its placeholder result by a fabricated path — the symlink path itself when
it already contains `mise/installs/python`, else a representative path
built from the version. -/
def mise_target_path (oracle : List String → CmdResult) (symlink : List String)
    (python_version : Option String) (dry_run : Bool) (verbose : Nat) (debug : Bool) :
    Option String × List Effect :=
  let r := run_command oracle (probe_cmd python_version) dry_run verbose debug
  if dry_run then
    (some (if infixOf "mise/installs/python".data (pathStr symlink).data then
        pathStr symlink
      else "/blah/mise/installs/python/" ++ optStr python_version ++ "/bin/python"), r.2)
  else r

/-- Separator line printed at the top of `fix_virtual_environment`. -/
def dashes_msg : String := "--------------------"

/-- Diagnostic printed when no target interpreter path was determined. -/
def could_not_msg (target v : String) : String :=
  "Could not find a path to the " ++ target ++ " python executable for version " ++ v ++ "."

/-- Verbose report of the discovered candidate. -/
def found_msg (symlink ve : List String) (python_version : Option String) : String :=
  "Found " ++ pathStr symlink ++ " in " ++ pathStr ve ++ " for version "
    ++ optStr python_version ++ "."

/-- Verbose report of the migration about to happen. -/
def fixing_msg (ve : List String) (tp : String) : String :=
  "Fixing " ++ pathStr ve ++ " to use " ++ tp ++ "..."

/-- Report printed when the candidate already uses the target manager. -/
def skipping_msg (ve : List String) (target : String) : String :=
  "Skipping " ++ pathStr ve ++ ", it is already using " ++ target ++ "."

/-- Report printed before the destructive rebuild. -/
def attempting_msg (ve : List String) : String :=
  "Attempting to use mise to rebuild " ++ pathStr ve ++ "."

/-- Placeholder report for the unimplemented rtx target (source line 266). -/
def ns_rtx_msg : String := "No support for RTX yet because my use case is moving to mise."

/-- Placeholder report for the unimplemented pyenv target (source line 269). -/
def ns_pyenv_msg : String := "No support for pyenv yet because my use case is moving to mise."

/-- Report printed when a `pdm.lock` drives the package restore. -/
def pdm_msg (parent : List String) : String :=
  "Found pdm.lock in " ++ pathStr parent ++ " using pdm to restore packages."

/-- Report printed when a requirements file drives the package restore. -/
def pip_msg (rf : List String) : String :=
  "Found " ++ pathStr rf ++ " using pip to restore packages."

/-- Report printed when no package-restore strategy is known. -/
def idk_msg (ve : List String) : String :=
  "I don\x27t know how to restore packages in " ++ pathStr ve ++ "."

/-- Report printed before renaming the legacy configuration file. -/
def rtx_rename_msg (parent : List String) : String :=
  "Found .rtx.toml in " ++ pathStr parent ++ ", renaming to .mise.toml"

/-- Model of `fix_virtual_environment` (source lines 181-299).  Inputs: the
filesystem `fs` (used for the parent-directory listing and the
requirements search), the environment directory `ve` and its resolved
interpreter symlink path `symlink`, the configuration (`target`,
`dry_run`, `verbose`, `debug`), the process oracle, and the two
filesystem predicates `pe` (modelling `Path(target_path).exists()`) and
`sf` (modelling `symlink.samefile(target_path)`).  The result is the
effect trace together with a flag that is `true` when the Python function
would raise an uncaught exception (IndexError from
`extract_python_version`, NameError on an unrecognized target, or an
`iterdir` failure on the parent directory). -/
def fix_virtual_environment (fs : FSTree) (ve symlink : List String) (target : String)
    (dry_run : Bool) (verbose : Nat) (debug : Bool)
    (oracle : List String → CmdResult)
    (pe : String → Bool) (sf : List String → String → Bool) :
    List Effect × Bool :=
  let e0 := [Effect.consolePrint dashes_msg]
  match extract_python_version symlink with
  | Except.error _ => (e0, true)
  | Except.ok python_version =>
    if target = "mise" ∨ target = "pyenv" ∨ target = "rtx" then
      let tpe : Option String × List Effect :=
        if target = "mise" then
          mise_target_path oracle symlink python_version dry_run verbose debug
        else (none, [])
      let e1 := tpe.2
      let e2 := if verbose > 0 then
          [Effect.consolePrint (found_msg symlink ve python_version),
           Effect.consolePrint ("Target path: " ++ optStr tpe.1)]
        else []
      match tpe.1 with
      | none =>
        (e0 ++ e1 ++ e2 ++
          [Effect.consolePrint (could_not_msg target (optStr python_version))], false)
      | some tp =>
        if tp = "" then
          (e0 ++ e1 ++ e2 ++
            [Effect.consolePrint (could_not_msg target (optStr python_version))], false)
        else
          let e3 := if verbose > 0 then [Effect.consolePrint (fixing_msg ve tp)] else []
          match lookupPath fs ve.dropLast with
          | some (FSTree.dir entries) =>
            let parent_files := entryNames entries
            let pre := e0 ++ e1 ++ e2 ++ e3
            let rtx_block : List Effect × Bool :=
              if parent_files.contains ".rtx.toml" && target = "mise" then
                let ec := change_dir ve.dropLast dry_run verbose
                let mv := run_command oracle ["mv", ".rtx.toml", ".mise.toml"]
                  dry_run verbose debug
                ([Effect.consolePrint (rtx_rename_msg ve.dropLast)] ++ ec ++ mv.2, false)
              else ([], false)
            let reinstall_block : List Effect × Bool :=
              if parent_files.contains "pdm.lock" then
                let ec := change_dir ve.dropLast dry_run verbose
                let r := run_command oracle ["pdm", "install"] dry_run verbose debug
                ([Effect.consolePrint (pdm_msg ve.dropLast)] ++ ec ++ r.2, r.1.isNone)
              else
                match find_requirements_file fs ve.dropLast with
                | some rf =>
                  let ec := change_dir ve.dropLast dry_run verbose
                  let r := run_command oracle ["pip", "install", "-r", pathStr rf]
                    dry_run verbose debug
                  ([Effect.consolePrint (pip_msg rf)] ++ ec ++ r.2, r.1.isNone)
                | none => ([Effect.consolePrint (idk_msg ve)], false)
            if pe tp && sf symlink tp then
              (pre ++ [Effect.consolePrint (skipping_msg ve target)] ++ rtx_block.1,
               rtx_block.2)
            else if target = "mise" then
              let rm := run_command oracle ["rm", "-rf", pathStr ve] dry_run verbose debug
              if rm.1.isNone then
                (pre ++ [Effect.consolePrint (attempting_msg ve)] ++ rm.2, false)
              else
                let mkv := run_command oracle (venv_cmd python_version ve) dry_run verbose debug
                if mkv.1.isNone then
                  (pre ++ [Effect.consolePrint (attempting_msg ve)] ++ rm.2 ++ mkv.2, false)
                else
                  if reinstall_block.2 then
                    (pre ++ [Effect.consolePrint (attempting_msg ve)] ++ rm.2 ++ mkv.2
                      ++ reinstall_block.1, false)
                  else
                    (pre ++ [Effect.consolePrint (attempting_msg ve)] ++ rm.2 ++ mkv.2
                      ++ reinstall_block.1 ++ rtx_block.1, rtx_block.2)
            else if target = "rtx" then
              (pre ++ [Effect.consolePrint ns_rtx_msg], false)
            else if target = "pyenv" then
              (pre ++ [Effect.consolePrint ns_pyenv_msg], false)
            else
              (pre ++ rtx_block.1, rtx_block.2)
          | _ => (e0 ++ e1 ++ e2 ++ e3, true)
    else
      (e0 ++ (if verbose > 0 then
        [Effect.consolePrint (found_msg symlink ve python_version)] else []), true)

mutual
/-- Filesystem node for the discovery engine.  `file sym` is a non-directory
entry (`sym` is its `is_symlink()` flag); `dir sym entries` is a listable
directory (for a symlinked directory, `is_dir()` follows the link, so its
target's entries appear here); `baddir sym` is a directory that passes the
`is_dir()` check when seen as a child but whose later `iterdir()` raises
(it vanished between listing and inspection, or is unreadable). -/
inductive FSNode where
  | file (sym : Bool) : FSNode
  | baddir (sym : Bool) : FSNode
  | dir (sym : Bool) (entries : FSEntryList) : FSNode
/-- Named children of a discovery-engine directory, in `iterdir` order. -/
inductive FSEntryList where
  | nil : FSEntryList
  | cons (name : String) (node : FSNode) (rest : FSEntryList) : FSEntryList
end

mutual
/-- Structural size of a discovery node (termination measure). -/
def nodeSize : FSNode → Nat
  | FSNode.dir _ es => 1 + entriesSize es
  | _ => 1
/-- Structural size of an entry list (termination measure). -/
def entriesSize : FSEntryList → Nat
  | FSEntryList.nil => 1
  | FSEntryList.cons _ t rest => 1 + nodeSize t + entriesSize rest
end

/-- Model of the body of the `for p in top.iterdir()` loop of
`find_virtual_environments` (source lines 87-96) over the children of the
directory at path `top`: directories not in the ignore list and not
themselves symlinks are collected (in `iterdir` order) for the work-list;
a non-directory child is yielded as a candidate
`(p.parent.parent, p.resolve())` exactly when it is a symlink named
`python` whose parent directory is named `bin`.  The external
`Path.resolve` is abstracted by the `resolve` parameter.  (The `verbose`
tracing print is omitted: no claim concerns it.) -/
def scan_children (ignore : List String) (resolve : List String → List String)
    (top : List String) : FSEntryList →
      List (List String × FSNode) × List (List String × List String)
  | FSEntryList.nil => ([], [])
  | FSEntryList.cons name child rest =>
    let r := scan_children ignore resolve top rest
    match child with
    | FSNode.file sym =>
      if name = "python" ∧ sym = true ∧ top.getLastD "" = "bin" then
        (r.1, (top.dropLast, resolve (top ++ [name])) :: r.2)
      else r
    | FSNode.dir sym es =>
      if ignore.contains name then r
      else if sym then r
      else ((top ++ [name], FSNode.dir sym es) :: r.1, r.2)
    | FSNode.baddir sym =>
      if ignore.contains name then r
      else if sym then r
      else ((top ++ [name], FSNode.baddir sym) :: r.1, r.2)

/-- Outcome of a traversal: the candidates yielded (in order), the
work-list contents at the moment the loop stopped, and whether the
traversal stopped because `iterdir` raised an exception. -/
structure TravResult where
  cands : List (List String × List String)
  remaining : List (List String × FSNode)
  crashed : Bool

/-- Sum of node sizes over a work-list (termination measure). -/
def wlMeasure (w : List (List String × FSNode)) : Nat :=
  (w.map (fun e => nodeSize e.2)).sum

theorem wlMeasure_append (a b : List (List String × FSNode)) :
    wlMeasure (a ++ b) = wlMeasure a + wlMeasure b := by
  simp [wlMeasure]

theorem wlMeasure_reverse (a : List (List String × FSNode)) :
    wlMeasure a.reverse = wlMeasure a := by
  simp [wlMeasure, List.sum_reverse]

theorem scan_children_size (ignore : List String) (resolve : List String → List String)
    (top : List String) :
    ∀ es, wlMeasure (scan_children ignore resolve top es).1 ≤ entriesSize es
  | FSEntryList.nil => by simp [scan_children, wlMeasure, entriesSize]
  | FSEntryList.cons n c rest => by
    have ih := scan_children_size ignore resolve top rest
    cases c <;> simp only [scan_children, entriesSize, nodeSize] <;> split <;>
      first
        | (simp only [wlMeasure, List.map_cons, List.sum_cons] at *; omega)
        | (try split) <;> simp only [wlMeasure, List.map_cons, List.sum_cons,
            nodeSize] at * <;> omega

/-- Model of `find_virtual_environments(directories, ignore, verbose)`
(source lines 78-96).  The Python function is a generator that mutates the
caller's `directories` list in place (`pop` from the end, `append` to the
end); the list is modelled as threaded state, represented with its head as
the *end* of the Python list, so `pop()` takes the head and appending
children puts them, reversed, at the head.  Each work-list entry carries
the directory path together with the subtree `iterdir` would enumerate.
Popping a `baddir` (a directory that vanished after being listed, or one
without read permission) raises out of `iterdir` and aborts the whole
traversal; popping a non-directory likewise raises `NotADirectoryError`. -/
def find_virtual_environments (ignore : List String)
    (resolve : List String → List String) :
    List (List String × FSNode) → TravResult
  | [] => ⟨[], [], false⟩
  | (top, FSNode.dir _ es) :: rest =>
    let sc := scan_children ignore resolve top es
    let r := find_virtual_environments ignore resolve (sc.1.reverse ++ rest)
    ⟨sc.2 ++ r.cands, r.remaining, r.crashed⟩
  | (_, FSNode.file _) :: rest => ⟨[], rest, true⟩
  | (_, FSNode.baddir _) :: rest => ⟨[], rest, true⟩
termination_by w => wlMeasure w
decreasing_by
  have h := scan_children_size ignore resolve top es
  have e1 := wlMeasure_append (scan_children ignore resolve top es).1.reverse rest
  have e2 := wlMeasure_reverse (scan_children ignore resolve top es).1
  simp only [wlMeasure, List.map_cons, List.sum_cons, nodeSize] at *
  omega

mutual
/-- Replace the contents of every symlinked directory strictly below this
node by an empty listing, leaving everything else untouched.  Used to
express that the traversal never looks inside a symlinked directory. -/
def pruneNode : FSNode → FSNode
  | FSNode.dir sym es => FSNode.dir sym (pruneChildren es)
  | n => n
/-- Prune an entry list: a symlinked directory child keeps its name and
symlink flag but loses its entries; other children are pruned recursively. -/
def pruneChildren : FSEntryList → FSEntryList
  | FSEntryList.nil => FSEntryList.nil
  | FSEntryList.cons n (FSNode.dir true _) rest =>
    FSEntryList.cons n (FSNode.dir true FSEntryList.nil) (pruneChildren rest)
  | FSEntryList.cons n (FSNode.dir false es) rest =>
    FSEntryList.cons n (FSNode.dir false (pruneChildren es)) (pruneChildren rest)
  | FSEntryList.cons n c rest => FSEntryList.cons n c (pruneChildren rest)
end

/-- Prune the subtree carried by one work-list entry. -/
def prunePair (e : List String × FSNode) : List String × FSNode :=
  (e.1, pruneNode e.2)

theorem scan_children_prune (ignore : List String) (resolve : List String → List String)
    (top : List String) :
    ∀ es, scan_children ignore resolve top (pruneChildren es) =
      ((scan_children ignore resolve top es).1.map prunePair,
       (scan_children ignore resolve top es).2)
  | FSEntryList.nil => by simp [scan_children, pruneChildren]
  | FSEntryList.cons n c rest => by
    have ih := scan_children_prune ignore resolve top rest
    match c with
    | FSNode.file sym =>
      simp only [pruneChildren, scan_children, ih]
      split <;> rename_i h1 <;> simp_all [prunePair, pruneNode]
    | FSNode.dir true es2 =>
      simp only [pruneChildren, scan_children, ih]
      split <;> rename_i h1 <;> simp_all [prunePair, pruneNode]
    | FSNode.dir false es2 =>
      simp only [pruneChildren, scan_children, ih]
      split <;> rename_i h1 <;> simp_all [prunePair, pruneNode]
    | FSNode.baddir sym =>
      simp only [pruneChildren, scan_children, ih]
      split <;> rename_i h1 <;> (try (split <;> rename_i h2)) <;>
        simp_all [prunePair, pruneNode]

theorem wlMeasure_step (top : List String) (sym : Bool) (es : FSEntryList)
    (rest : List (List String × FSNode)) (ignore : List String)
    (resolve : List String → List String) :
    wlMeasure ((scan_children ignore resolve top es).1.reverse ++ rest) <
      wlMeasure ((top, FSNode.dir sym es) :: rest) := by
  have hsize := scan_children_size ignore resolve top es
  have e1 := wlMeasure_append (scan_children ignore resolve top es).1.reverse rest
  have e2 := wlMeasure_reverse (scan_children ignore resolve top es).1
  simp only [wlMeasure, List.map_cons, List.sum_cons, nodeSize] at *
  omega

theorem prune_traverse_aux (ignore : List String) (resolve : List String → List String) :
    ∀ n w, wlMeasure w < n →
      (find_virtual_environments ignore resolve (w.map prunePair)).cands
        = (find_virtual_environments ignore resolve w).cands ∧
      (find_virtual_environments ignore resolve (w.map prunePair)).crashed
        = (find_virtual_environments ignore resolve w).crashed := by
  intro n
  induction n with
  | zero => intro w h; omega
  | succ n ih =>
    intro w h
    match w with
    | [] => simp [find_virtual_environments]
    | (top, FSNode.file sym) :: rest =>
      simp [find_virtual_environments, prunePair, pruneNode]
    | (top, FSNode.baddir sym) :: rest =>
      simp [find_virtual_environments, prunePair, pruneNode]
    | (top, FSNode.dir sym es) :: rest =>
      have hm : wlMeasure ((scan_children ignore resolve top es).1.reverse ++ rest) < n := by
        have := wlMeasure_step top sym es rest ignore resolve
        omega
      have ihx := ih ((scan_children ignore resolve top es).1.reverse ++ rest) hm
      simp only [List.map_cons, prunePair, pruneNode, find_virtual_environments,
        scan_children_prune ignore resolve top es]
      rw [← List.map_reverse, ← List.map_append]
      exact ⟨by rw [ihx.1], ihx.2⟩

theorem consumed_aux (ignore : List String) (resolve : List String → List String) :
    ∀ n w, wlMeasure w < n →
      (find_virtual_environments ignore resolve w).remaining = [] ∨
      (find_virtual_environments ignore resolve w).crashed = true := by
  intro n
  induction n with
  | zero => intro w h; omega
  | succ n ih =>
    intro w h
    match w with
    | [] => simp [find_virtual_environments]
    | (top, FSNode.file sym) :: rest => simp [find_virtual_environments]
    | (top, FSNode.baddir sym) :: rest => simp [find_virtual_environments]
    | (top, FSNode.dir sym es) :: rest =>
      have hm : wlMeasure ((scan_children ignore resolve top es).1.reverse ++ rest) < n := by
        have := wlMeasure_step top sym es rest ignore resolve
        omega
      have ihx := ih ((scan_children ignore resolve top es).1.reverse ++ rest) hm
      simpa [find_virtual_environments] using ihx

/-- Identity resolution: used in concrete scenarios where the resolved
path of the interpreter symlink is irrelevant. -/
def idResolve : List String → List String := fun p => p

/-- Concrete subtree holding one virtual environment
(`b/bin/python`, a symlink file inside a `bin` directory). -/
def crashTreeB : FSNode :=
  FSNode.dir false (FSEntryList.cons "bin"
    (FSNode.dir false (FSEntryList.cons "python" (FSNode.file true) FSEntryList.nil))
    FSEntryList.nil)

/-- Concrete root whose `iterdir` lists `b` (a healthy subtree with a
virtual environment) before `a` (a directory that vanishes or is
unreadable); `a` is appended to the work-list after `b` and therefore
popped first. -/
def crashSeed : FSNode :=
  FSNode.dir false (FSEntryList.cons "b" crashTreeB
    (FSEntryList.cons "a" (FSNode.baddir false) FSEntryList.nil))

/-- C4 counterexample: the traversal does crash on a directory that
disappears between listing and inspection (or lacks read permission).  On
`crashSeed` the traversal stops with `crashed = true`, yields no
candidate, and leaves subtree `b` unprocessed on the work-list — even
though traversing `b` alone would have yielded a candidate.  Errors are
not "reported and skipped with the traversal continuing": the whole
traversal is aborted. -/
theorem traversal_crash_example :
    find_virtual_environments [] idResolve [(["r"], crashSeed)]
      = ⟨[], [(["r", "b"], crashTreeB)], true⟩ ∧
    find_virtual_environments [] idResolve [(["r", "b"], crashTreeB)]
      = ⟨[(["r", "b"], ["r", "b", "bin", "python"])], [], false⟩ := by
  constructor <;>
    simp [find_virtual_environments, crashSeed, crashTreeB, scan_children, idResolve]

/-- C4 amended: `find_virtual_environments` has no error recovery.
Whenever the work-list's top directory cannot be listed (it vanished
after being pushed, or lacks read permission), the `iterdir` exception
propagates: the traversal yields nothing further and the remaining
work-list stays unprocessed. -/
theorem unlistable_dir_aborts_traversal (ignore : List String)
    (resolve : List String → List String) (top : List String) (sym : Bool)
    (rest : List (List String × FSNode)) :
    find_virtual_environments ignore resolve ((top, FSNode.baddir sym) :: rest)
      = ⟨[], rest, true⟩ := by
  simp [find_virtual_environments]

/-- C9: no Environment Candidate is ever yielded from beneath a symlinked
directory.  Formally: replacing the contents of every symlinked directory
properly below the traversal roots by an empty listing (`prunePair`)
changes neither the candidates yielded nor whether the traversal crashes,
so the traversal never depends on — in particular never descends into —
anything beneath a symlinked directory. -/
theorem symlinked_dir_contents_irrelevant (ignore : List String)
    (resolve : List String → List String) (w : List (List String × FSNode)) :
    (find_virtual_environments ignore resolve (w.map prunePair)).cands
      = (find_virtual_environments ignore resolve w).cands ∧
    (find_virtual_environments ignore resolve (w.map prunePair)).crashed
      = (find_virtual_environments ignore resolve w).crashed :=
  prune_traverse_aux ignore resolve (wlMeasure w + 1) w (Nat.lt_succ_self _)

/-- C10: the traversal consumes the caller's `directories` list in place
(modelled as threaded state): whenever it terminates without an
`iterdir` exception the final work-list is empty, and a traversal started
from an exhausted (empty) work-list yields no candidates — the list
cannot be reused for a second traversal. -/
theorem worklist_fully_consumed (ignore : List String)
    (resolve : List String → List String) (w : List (List String × FSNode)) :
    ((find_virtual_environments ignore resolve w).remaining = [] ∨
      (find_virtual_environments ignore resolve w).crashed = true) ∧
    find_virtual_environments ignore resolve [] = ⟨[], [], false⟩ :=
  ⟨consumed_aux ignore resolve (wlMeasure w + 1) w (Nat.lt_succ_self _), by
    simp [find_virtual_environments]⟩

theorem run_command_dry (oracle : List String → CmdResult) (cmd : List String)
    (verbose : Nat) (debug : Bool) :
    run_command oracle cmd true verbose debug
      = (some "/tmp", [Effect.consolePrint ("Would run: " ++ cmd_text cmd)]) := rfl

theorem change_dir_dry (path : List String) (verbose : Nat) :
    change_dir path true verbose
      = [Effect.consolePrint ("Would change to " ++ pathStr path)] := rfl

theorem mise_target_path_dry (oracle : List String → CmdResult) (symlink : List String)
    (pv : Option String) (verbose : Nat) (debug : Bool) :
    mise_target_path oracle symlink pv true verbose debug
      = (some (if infixOf "mise/installs/python".data (pathStr symlink).data then
            pathStr symlink
          else "/blah/mise/installs/python/" ++ optStr pv ++ "/bin/python"),
         [Effect.consolePrint ("Would run: " ++ cmd_text (probe_cmd pv))]) := rfl

set_option maxHeartbeats 1000000 in
theorem fix_dry_all_prints (fs : FSTree) (ve symlink : List String) (target : String)
    (verbose : Nat) (debug : Bool) (oracle : List String → CmdResult)
    (pe : String → Bool) (sf : List String → String → Bool) :
    ((fix_virtual_environment fs ve symlink target true verbose debug oracle pe sf).1).all
      isPrint = true := by
  by_cases h1 : target = "mise"
  · subst h1
    simp only [fix_virtual_environment, mise_target_path_dry, run_command_dry, change_dir_dry]
    repeat' split <;> try simp_all [isPrint]
    all_goals (intro a; intros; cases a <;> simp_all)
  · by_cases h2 : target = "pyenv"
    · subst h2
      simp only [fix_virtual_environment, mise_target_path_dry, run_command_dry, change_dir_dry]
      repeat' split <;> try simp_all [isPrint]
      all_goals (intro a; intros; cases a <;> simp_all)
    · by_cases h3 : target = "rtx"
      · subst h3
        simp only [fix_virtual_environment, mise_target_path_dry, run_command_dry, change_dir_dry]
        repeat' split <;> try simp_all [isPrint]
        all_goals (intro a; intros; cases a <;> simp_all)
      · simp only [fix_virtual_environment, h1, h2, h3]
        repeat' split <;> try simp_all [isPrint]

/-- C1: with dry-run enabled the program performs no filesystem mutation.
`run_command` executes no external process and returns the placeholder
`"/tmp"` after printing the intent; `change_dir` changes no directory and
only prints the intent; and an entire `fix_virtual_environment` run in
dry-run mode — whatever the candidate, target, filesystem, oracle and
flags — produces a trace consisting of prints only (no `runProc`, no
`chdir`). -/
theorem dry_run_no_mutation :
    (∀ oracle cmd verbose debug, run_command oracle cmd true verbose debug
        = (some "/tmp", [Effect.consolePrint ("Would run: " ++ cmd_text cmd)])) ∧
    (∀ path verbose, change_dir path true verbose
        = [Effect.consolePrint ("Would change to " ++ pathStr path)]) ∧
    (∀ fs ve symlink target verbose debug oracle pe sf,
        ((fix_virtual_environment fs ve symlink target true verbose debug oracle pe sf).1).all
          isPrint = true) :=
  ⟨fun _ _ _ _ => rfl, fun _ _ => rfl, fix_dry_all_prints⟩

/-- C5: in live (non-dry-run) mode `run_command` returns the trimmed
standard output on a zero exit status, the literal sentinel `"OK"` when
the exit status is zero but the trimmed output is empty, and `none` on a
non-zero exit status. -/
theorem run_command_live_result (oracle : List String → CmdResult) (cmd : List String)
    (verbose : Nat) (debug : Bool) :
    (run_command oracle cmd false verbose debug).1 =
      (if (oracle cmd).returncode ≠ 0 then none
       else if strip (oracle cmd).stdout = "" then some "OK"
       else some (strip (oracle cmd).stdout)) := by
  simp only [run_command, Bool.false_eq_true, if_false]
  split <;> split <;> simp_all

/-- C6 counterexample: in dry-run mode `run_command` returns the path
string `"/tmp"` even for commands other than the initial
locate-interpreter probe — here the remove command — and `"/tmp"` is not
the success sentinel `"OK"`. -/
theorem run_command_dry_not_ok :
    (run_command (fun _ => ⟨0, "", ""⟩) ["rm", "-rf", "/x/venv"] true 0 false).1
      = some "/tmp" ∧ (some "/tmp" : Option String) ≠ some "OK" :=
  ⟨rfl, by decide⟩

/-- C6 amended: in dry-run mode `run_command` returns the fixed string
`"/tmp"` for every command, probe or not; the sentinel `"OK"` arises only
in live mode when the trimmed output is empty.  (It is the orchestrator
that separately overwrites the probe's dry-run result with a fabricated
interpreter path.) -/
theorem run_command_dry_always_tmp (oracle : List String → CmdResult)
    (cmd : List String) (verbose : Nat) (debug : Bool) :
    (run_command oracle cmd true verbose debug).1 = some "/tmp" := rfl

/-- C2: `extract_python_version` is not total — contrary to the claim that
it returns absent and never fails when no `"python"`-then-version
adjacency exists, the loop reads `parts[i + 1]` when the final component
equals `"python"`, raising `IndexError`.  Both a pyenv-style resolved
interpreter path and a plain `/usr/bin/python` path make it raise. -/
theorem extract_python_version_index_error :
    extract_python_version
        ["/", "home", "u", ".pyenv", "versions", "3.10.7", "bin", "python"]
      = Except.error () ∧
    extract_python_version ["/", "usr", "bin", "python"] = Except.error () :=
  ⟨rfl, rfl⟩

/-- C8: twin-project fallback of `find_requirements_file`.  If the direct
search of the project directory finds nothing and the directory's parent
is named `administrator`, the result is that of searching the sibling path
with `eng-tools` substituted for `administrator` (final directory name
preserved); symmetrically, for a parent named `eng-tools` the
`administrator` sibling is searched. -/
theorem twin_project_fallback (fs : FSTree) (d : List String)
    (h0 : search_in_path fs d = none) :
    (d.dropLast.getLastD "" = "administrator" →
      find_requirements_file fs d
        = search_in_path fs (d.dropLast.dropLast ++ ["eng-tools", d.getLastD ""])) ∧
    (d.dropLast.getLastD "" = "eng-tools" →
      find_requirements_file fs d
        = search_in_path fs (d.dropLast.dropLast ++ ["administrator", d.getLastD ""])) := by
  constructor
  · intro ha
    simp only [find_requirements_file, h0, ha]
    split <;> simp_all
  · intro he
    simp only [find_requirements_file, h0, he]
    split <;> simp_all

/-- Concrete twin-project filesystem: `x/administrator/proj` holds no
manifest while `x/eng-tools/proj/requirements.txt` exists. -/
def twinFS : FSTree :=
  FSTree.dir (EntryList.cons "x"
    (FSTree.dir (EntryList.cons "administrator"
      (FSTree.dir (EntryList.cons "proj" (FSTree.dir EntryList.nil) EntryList.nil))
      (EntryList.cons "eng-tools"
        (FSTree.dir (EntryList.cons "proj"
          (FSTree.dir (EntryList.cons "requirements.txt" FSTree.file EntryList.nil))
          EntryList.nil))
        EntryList.nil)))
    EntryList.nil)

/-- C8 witness: on the concrete twin-project filesystem the direct search
fails and resolution returns the manifest of the `eng-tools` sibling. -/
theorem twin_project_fallback_witness :
    search_in_path twinFS ["x", "administrator", "proj"] = none ∧
    find_requirements_file twinFS ["x", "administrator", "proj"]
      = search_in_path twinFS ["x", "eng-tools", "proj"] ∧
    search_in_path twinFS ["x", "eng-tools", "proj"]
      = some ["x", "eng-tools", "proj", "requirements.txt"] :=
  ⟨rfl, (twin_project_fallback twinFS ["x", "administrator", "proj"] rfl).1 rfl, rfl⟩

theorem ne_of_head (s t : String) (c d : Char) (hs : s.data.head? = some c)
    (ht : t.data.head? = some d) (hcd : c ≠ d) : s ≠ t := by
  intro he
  rw [he] at hs
  exact hcd (Option.some.inj (hs.symm.trans ht))

theorem found_msg_head (symlink ve : List String) (pv : Option String) :
    (found_msg symlink ve pv).data.head? = some 'F' := by
  simp only [found_msg, String.data_append]
  rfl

theorem could_not_msg_head (target v : String) :
    (could_not_msg target v).data.head? = some 'C' := by
  simp only [could_not_msg, String.data_append]
  rfl

/-- Concrete orchestrator run with the pyenv target (live mode, silent
verbosity, a succeeding oracle, and same-file predicates that always
hold). -/
def pyenvRun : List Effect × Bool :=
  fix_virtual_environment twinFS ["p", "venv"]
    ["opt", "python", "3.11.2", "bin", "python"] "pyenv" false 0 false
    (fun _ => CmdResult.mk 0 "" "") (fun _ => true) (fun _ _ => true)

/-- C7 counterexample: for the pyenv target the orchestrator does not
report "not yet supported".  Because `target_path` is `None` for pyenv and
rtx, the function returns at the `if not target_path` guard with the
"Could not find a path ..." diagnostic, and the `No support for ...`
branches (source lines 265-270) are unreachable: at this concrete
candidate the trace is exactly the separator plus the could-not-find
diagnostic, and neither placeholder report appears. -/
theorem pyenv_reports_could_not_find :
    pyenvRun = ([Effect.consolePrint dashes_msg,
        Effect.consolePrint (could_not_msg "pyenv" "3.11.2")], false) ∧
    Effect.consolePrint ns_pyenv_msg ∉ pyenvRun.1 ∧
    Effect.consolePrint ns_rtx_msg ∉ pyenvRun.1 := by
  refine ⟨rfl, ?_, ?_⟩ <;> decide

/-- C7 amended: for a pyenv or rtx target the orchestrator performs no
filesystem action at all — its trace consists of prints only, with no
process execution and no directory change — but the report it produces is
the "Could not find a path ..." diagnostic (when version extraction does
not raise), never the "No support for ... yet" message, whose branch is
dead code. -/
theorem unsupported_target_no_action (fs : FSTree) (ve symlink : List String)
    (target : String) (dry_run : Bool) (verbose : Nat) (debug : Bool)
    (oracle : List String → CmdResult) (pe : String → Bool)
    (sf : List String → String → Bool)
    (h : target = "pyenv" ∨ target = "rtx") :
    ((fix_virtual_environment fs ve symlink target dry_run verbose debug oracle pe sf).1).all
        isPrint = true ∧
    Effect.consolePrint ns_pyenv_msg
      ∉ (fix_virtual_environment fs ve symlink target dry_run verbose debug oracle pe sf).1 ∧
    Effect.consolePrint ns_rtx_msg
      ∉ (fix_virtual_environment fs ve symlink target dry_run verbose debug oracle pe sf).1 ∧
    ((fix_virtual_environment fs ve symlink target dry_run verbose debug oracle pe sf).2 = false
      → ∃ v, Effect.consolePrint (could_not_msg target v)
          ∈ (fix_virtual_environment fs ve symlink target dry_run verbose debug oracle pe sf).1) := by
  have hdF : ∀ sy v p, ns_pyenv_msg ≠ found_msg sy v p := fun sy v p =>
    Ne.symm (ne_of_head _ _ 'F' 'N' (found_msg_head sy v p) rfl (by decide))
  have hdF2 : ∀ sy v p, ns_rtx_msg ≠ found_msg sy v p := fun sy v p =>
    Ne.symm (ne_of_head _ _ 'F' 'N' (found_msg_head sy v p) rfl (by decide))
  have hdC : ∀ t v, ns_pyenv_msg ≠ could_not_msg t v := fun t v =>
    Ne.symm (ne_of_head _ _ 'C' 'N' (could_not_msg_head t v) rfl (by decide))
  have hdC2 : ∀ t v, ns_rtx_msg ≠ could_not_msg t v := fun t v =>
    Ne.symm (ne_of_head _ _ 'C' 'N' (could_not_msg_head t v) rfl (by decide))
  rcases h with h | h <;> subst h
  · cases hx : extract_python_version symlink with
    | error e =>
      have heff : fix_virtual_environment fs ve symlink "pyenv" dry_run verbose debug
          oracle pe sf = ([Effect.consolePrint dashes_msg], true) := by
        simp [fix_virtual_environment, hx]
      rw [heff]
      refine ⟨rfl, by decide, by decide, by simp⟩
    | ok pv =>
      have heff : fix_virtual_environment fs ve symlink "pyenv" dry_run verbose debug
          oracle pe sf
          = ([Effect.consolePrint dashes_msg] ++
              (if verbose > 0 then
                [Effect.consolePrint (found_msg symlink ve pv),
                 Effect.consolePrint ("Target path: " ++ optStr none)] else []) ++
              [Effect.consolePrint (could_not_msg "pyenv" (optStr pv))], false) := by
        simp [fix_virtual_environment, hx]
      rw [heff]
      refine ⟨?_, ?_, ?_, fun _ => ⟨optStr pv, by by_cases hv : verbose > 0 <;> simp [hv]⟩⟩
      · by_cases hv : verbose > 0 <;> simp [hv, isPrint]
      · by_cases hv : verbose > 0 <;>
          simp [hv, hdF symlink ve pv, hdC "pyenv" (optStr pv), show
            ns_pyenv_msg ≠ dashes_msg by decide, show
            ns_pyenv_msg ≠ "Target path: " ++ optStr none by decide]
      · by_cases hv : verbose > 0 <;>
          simp [hv, hdF2 symlink ve pv, hdC2 "pyenv" (optStr pv), show
            ns_rtx_msg ≠ dashes_msg by decide, show
            ns_rtx_msg ≠ "Target path: " ++ optStr none by decide]
  · cases hx : extract_python_version symlink with
    | error e =>
      have heff : fix_virtual_environment fs ve symlink "rtx" dry_run verbose debug
          oracle pe sf = ([Effect.consolePrint dashes_msg], true) := by
        simp [fix_virtual_environment, hx]
      rw [heff]
      refine ⟨rfl, by decide, by decide, by simp⟩
    | ok pv =>
      have heff : fix_virtual_environment fs ve symlink "rtx" dry_run verbose debug
          oracle pe sf
          = ([Effect.consolePrint dashes_msg] ++
              (if verbose > 0 then
                [Effect.consolePrint (found_msg symlink ve pv),
                 Effect.consolePrint ("Target path: " ++ optStr none)] else []) ++
              [Effect.consolePrint (could_not_msg "rtx" (optStr pv))], false) := by
        simp [fix_virtual_environment, hx]
      rw [heff]
      refine ⟨?_, ?_, ?_, fun _ => ⟨optStr pv, by by_cases hv : verbose > 0 <;> simp [hv]⟩⟩
      · by_cases hv : verbose > 0 <;> simp [hv, isPrint]
      · by_cases hv : verbose > 0 <;>
          simp [hv, hdF symlink ve pv, hdC "rtx" (optStr pv), show
            ns_pyenv_msg ≠ dashes_msg by decide, show
            ns_pyenv_msg ≠ "Target path: " ++ optStr none by decide]
      · by_cases hv : verbose > 0 <;>
          simp [hv, hdF2 symlink ve pv, hdC2 "rtx" (optStr pv), show
            ns_rtx_msg ≠ dashes_msg by decide, show
            ns_rtx_msg ≠ "Target path: " ++ optStr none by decide]

/-- C7 witness: the amended no-action property instantiated at a concrete
rtx-target candidate. -/
theorem unsupported_target_no_action_witness :
    ((fix_virtual_environment twinFS ["p", "venv"]
        ["opt", "python", "3.11.2", "bin", "python"] "rtx" false 2 true
        (fun _ => CmdResult.mk 0 "" "") (fun _ => true) (fun _ _ => true)).1).all
        isPrint = true ∧
    Effect.consolePrint ns_pyenv_msg
      ∉ (fix_virtual_environment twinFS ["p", "venv"]
        ["opt", "python", "3.11.2", "bin", "python"] "rtx" false 2 true
        (fun _ => CmdResult.mk 0 "" "") (fun _ => true) (fun _ _ => true)).1 ∧
    Effect.consolePrint ns_rtx_msg
      ∉ (fix_virtual_environment twinFS ["p", "venv"]
        ["opt", "python", "3.11.2", "bin", "python"] "rtx" false 2 true
        (fun _ => CmdResult.mk 0 "" "") (fun _ => true) (fun _ _ => true)).1 ∧
    ((fix_virtual_environment twinFS ["p", "venv"]
        ["opt", "python", "3.11.2", "bin", "python"] "rtx" false 2 true
        (fun _ => CmdResult.mk 0 "" "") (fun _ => true) (fun _ _ => true)).2 = false
      → ∃ v, Effect.consolePrint (could_not_msg "rtx" v)
          ∈ (fix_virtual_environment twinFS ["p", "venv"]
            ["opt", "python", "3.11.2", "bin", "python"] "rtx" false 2 true
            (fun _ => CmdResult.mk 0 "" "") (fun _ => true) (fun _ _ => true)).1) :=
  unsupported_target_no_action twinFS ["p", "venv"]
    ["opt", "python", "3.11.2", "bin", "python"] "rtx" false 2 true
    (fun _ => CmdResult.mk 0 "" "") (fun _ => true) (fun _ _ => true) (Or.inr rfl)

/-- Concrete filesystem for the skip-branch counterexample: project
directory `p` holds the environment `venv` and a legacy `.rtx.toml`
configuration file. -/
def skipFS : FSTree :=
  FSTree.dir (EntryList.cons "p"
    (FSTree.dir (EntryList.cons "venv" (FSTree.dir EntryList.nil)
      (EntryList.cons ".rtx.toml" FSTree.file EntryList.nil)))
    EntryList.nil)

/-- Concrete orchestrator run (live mode) in which the candidate is
already managed by the target: the probe succeeds and the same-file
identity check holds, so the Skip branch is taken. -/
def skipRun : List Effect × Bool :=
  fix_virtual_environment skipFS ["p", "venv"]
    ["opt", "mise", "installs", "python", "3.11.2", "bin", "python"] "mise" false 0 false
    (fun _ => CmdResult.mk 0 "/x/target/python" "") (fun _ => true) (fun _ _ => true)

/-- C3 counterexample: a candidate whose symlink and resolved target
denote the same file is marked Skip, yet the orchestrator does not stop:
because the legacy-configuration rename block (source lines 293-299) sits
after the Skip branch at function level, it still changes into the parent
directory and runs the `mv .rtx.toml .mise.toml` command.  The full trace
shows the Skip report followed by a directory change and a process
execution — an action performed despite the Skip. -/
theorem skip_branch_still_renames :
    skipRun = ([Effect.consolePrint dashes_msg,
        Effect.runProc (probe_cmd (some "3.11.2")),
        Effect.consolePrint (skipping_msg ["p", "venv"] "mise"),
        Effect.consolePrint (rtx_rename_msg ["p"]),
        Effect.chdir ["p"],
        Effect.runProc ["mv", ".rtx.toml", ".mise.toml"]], false) ∧
    Effect.runProc ["mv", ".rtx.toml", ".mise.toml"] ∈ skipRun.1 :=
  ⟨rfl, by decide⟩

/-- C3 amended: when the same-file identity check holds the orchestrator
marks Skip and performs no remove, rebuild, or reinstall — and, provided
no `.rtx.toml` is present in the parent directory, no action at all
besides the initial probe: the trace is exactly the probe's effects plus
reports.  (With a `.rtx.toml` present and target mise, the rename still
runs — see the counterexample — so a second pass is free of destructive
actions, the rename having been done by the first.) -/
theorem skip_branch_no_destruction (fs : FSTree) (ve symlink : List String)
    (dry_run : Bool) (verbose : Nat) (debug : Bool)
    (oracle : List String → CmdResult) (pe : String → Bool)
    (sf : List String → String → Bool) (pv : Option String) (tp : String)
    (e1 : List Effect) (entries : EntryList)
    (hx : extract_python_version symlink = Except.ok pv)
    (hmt : mise_target_path oracle symlink pv dry_run verbose debug = (some tp, e1))
    (htp : tp ≠ "")
    (hpe : pe tp = true) (hsf : sf symlink tp = true)
    (hlk : lookupPath fs ve.dropLast = some (FSTree.dir entries))
    (hrtx : (entryNames entries).contains ".rtx.toml" = false) :
    fix_virtual_environment fs ve symlink "mise" dry_run verbose debug oracle pe sf
      = ([Effect.consolePrint dashes_msg] ++ e1 ++
          (if verbose > 0 then
            [Effect.consolePrint (found_msg symlink ve pv),
             Effect.consolePrint ("Target path: " ++ tp)] else []) ++
          (if verbose > 0 then [Effect.consolePrint (fixing_msg ve tp)] else []) ++
          [Effect.consolePrint (skipping_msg ve "mise")], false) := by
  have hrtx2 : ".rtx.toml" ∉ entryNames entries := by
    simpa using hrtx
  simp [fix_virtual_environment, hx, hmt, htp, hpe, hsf, hlk, hrtx2, optStr]

/-- Concrete filesystem like `skipFS` but with no `.rtx.toml` in the
parent directory. -/
def skipFS2 : FSTree :=
  FSTree.dir (EntryList.cons "p"
    (FSTree.dir (EntryList.cons "venv" (FSTree.dir EntryList.nil) EntryList.nil))
    EntryList.nil)

/-- C3 witness: the amended skip property instantiated at a concrete
already-migrated candidate with no `.rtx.toml` present: the run performs
exactly the probe and three reports, and nothing else. -/
theorem skip_branch_no_destruction_witness :
    fix_virtual_environment skipFS2 ["p", "venv"]
        ["opt", "mise", "installs", "python", "3.11.2", "bin", "python"] "mise" false 0 false
        (fun _ => CmdResult.mk 0 "/x/target/python" "") (fun _ => true) (fun _ _ => true)
      = ([Effect.consolePrint dashes_msg] ++ [Effect.runProc (probe_cmd (some "3.11.2"))] ++
          [] ++ [] ++
          [Effect.consolePrint (skipping_msg ["p", "venv"] "mise")], false) :=
  skip_branch_no_destruction skipFS2 ["p", "venv"]
    ["opt", "mise", "installs", "python", "3.11.2", "bin", "python"] false 0 false
    (fun _ => CmdResult.mk 0 "/x/target/python" "") (fun _ => true) (fun _ _ => true)
    (some "3.11.2") "/x/target/python" [Effect.runProc (probe_cmd (some "3.11.2"))]
    (EntryList.cons "venv" (FSTree.dir EntryList.nil) EntryList.nil)
    rfl rfl (by decide) rfl rfl rfl rfl
